import Mathlib

/-!
Shallow embedding of `yieldorcall.py`, a micro-benchmark comparing the
invocation overhead of plain function calls, method calls and generator-based
coroutine resumption.

Modelling conventions:
* Python floats are modelled as rationals (`ℚ`); the decimal literals of the
  source (`57.32`, `3.1415927`) are exact rationals.
* Python `None` is `Option.none`; a function that returns nothing returns
  `Option ℚ` with value `none`.
* A raised exception is `Except.error` carrying a `PyError`.
* The module-level environment (`data`, `pi`) is an explicit `ProgState`
  threaded through every operation that reads it; an operation returns the
  (unchanged, since the source never assigns to them) state alongside its
  result, so that state preservation is a provable statement.
* `random.random()` / `random.randint(0, 100)` are modelled by a stream of
  pre-drawn values together with the range guarantees of those library calls.
-/

namespace YieldOrCall

/-- Python exceptions that the embedded fragments can raise. -/
inductive PyError where
  | attributeError : String → PyError
  | typeError : String → PyError
  | valueError : String → PyError
  | nameError : String → PyError
  deriving DecidableEq, Repr

/-- `class Data`: the shared constant holder with two fixed attributes. -/
structure Data where
  param1 : String
  param2 : ℚ
  deriving DecidableEq, Repr

/-- The module-level environment of `yieldorcall.py`: the shared holder
`data` and the module constant `pi`. -/
structure ProgState where
  data : Data
  pi : ℚ
  deriving DecidableEq, Repr

/-- `data = Data()` (line 23): `Data.__init__` sets `param1 = "stuff"` and
`param2 = 57.32` (lines 19-21). -/
def data : Data := { param1 := "stuff", param2 := 57.32 }

/-- `pi = 3.1415927` (line 34). -/
def pi : ℚ := 3.1415927

/-- The module environment right after import/startup. -/
def initState : ProgState := { data := data, pi := pi }

/-- The value `z` computed in the body of `frequently_called_function`
(line 56): `p1 * p2 * pi + len(data.param1) * data.param2`, reading the
module constants from the given state. -/
def frequently_called_function_z (s : ProgState) (p1 p2 : ℚ) : ℚ :=
  p1 * p2 * s.pi + (s.data.param1.length : ℚ) * s.data.param2

/-- `def frequently_called_function(p1, p2)` (lines 51-56): computes `z`,
discards it, and returns `None`.  It only reads the state. -/
def frequently_called_function (s : ProgState) (p1 p2 : ℚ) :
    ProgState × Except PyError (Option ℚ) :=
  let _z := frequently_called_function_z s p1 p2
  (s, Except.ok none)

/-- `class MyClass` (lines 80-92): instance state is the captured `pi`. -/
structure MyClass where
  pi : ℚ
  deriving DecidableEq, Repr

/-- `MyClass.__init__(self, pi)` (lines 81-83): `self.pi = pi`. -/
def MyClass.init (pi : ℚ) : MyClass := { pi := pi }

/-- The value `z` computed in the body of `MyClass.frequently_called_method`
(line 92): `p1 * p2 * self.pi + len(data.param1) * data.param2`. -/
def MyClass.frequently_called_method_z (self : MyClass) (s : ProgState)
    (p1 p2 : ℚ) : ℚ :=
  p1 * p2 * self.pi + (s.data.param1.length : ℚ) * s.data.param2

/-- `MyClass.frequently_called_method` (lines 85-92): computes `z`, discards
it, returns `None`; reads but never writes the module state. -/
def MyClass.frequently_called_method (self : MyClass) (s : ProgState)
    (p1 p2 : ℚ) : ProgState × Except PyError (Option ℚ) :=
  let _z := self.frequently_called_method_z s p1 p2
  (s, Except.ok none)

/-- The local state a `frequently_called_coroutine` generator instance holds
at its suspension point: the locals captured by the initialization section
(lines 67-69). -/
structure CoroutineState where
  pi_local : ℚ
  offset : ℚ
  deriving DecidableEq, Repr

/-- Creation of the generator instance plus priming with `next(cr)`:
in Python the body only runs at the first `next`, which executes the
initialization section (lines 67-69: `pi_local = pi`,
`length = len(data.param1)`, `offset = length * data.param2`) and suspends
at the first `(yield)` (line 72). -/
def frequently_called_coroutine_init (s : ProgState) (pi : ℚ) : CoroutineState :=
  let pi_local := pi
  let length := (s.data.param1.length : ℚ)
  let offset := length * s.data.param2
  { pi_local := pi_local, offset := offset }

/-- The loop body run on each resumption once `(p1, p2)` is received
(line 74): `z = p1 * p2 * pi_local + offset`. -/
def frequently_called_coroutine_body (st : CoroutineState) (p1 p2 : ℚ) : ℚ :=
  p1 * p2 * st.pi_local + st.offset

/-- One resumption of a primed generator instance via `cr.send((p1, p2))`:
the pair is delivered at the `(yield)`, the body runs once, the loop comes
back to `(yield)` and suspends, yielding `None` to the caller.  The local
state and the module state are unchanged. -/
def frequently_called_coroutine_resume (st : CoroutineState) (s : ProgState)
    (p1 p2 : ℚ) : ProgState × CoroutineState × Except PyError (Option ℚ) :=
  let _z := frequently_called_coroutine_body st p1 p2
  (s, st, Except.ok none)

/-- Kinds of Python objects relevant to the generator misuse in
`coroutine_runner`: a plain function object (also: a generator function
before being called) versus a generator instance. -/
inductive PyObjKind where
  | functionObj
  | generatorObj
  deriving DecidableEq, Repr

/-- Python attribute lookup of `send`: generator instances have a `send`
method, plain function objects do not (looking it up raises
`AttributeError`). -/
def has_send : PyObjKind → Bool
  | PyObjKind.functionObj => false
  | PyObjKind.generatorObj => true

/-- A pre-drawn stream of pseudo-random values: `real i` is the result of the
`random.random()` call of iteration `i` and `int i` the result of
`random.randint(0, 100)`, together with the range guarantees those library
functions provide. -/
structure RandomStream where
  real : ℕ → ℚ
  int : ℕ → ℤ
  real_nonneg : ∀ i, 0 ≤ real i
  real_lt_one : ∀ i, real i < 1
  int_nonneg : ∀ i, 0 ≤ int i
  int_le : ∀ i, int i ≤ 100

/-- The sequence of argument pairs `(x, y)` that `function_runner`'s loop
(lines 96-99) passes to `frequently_called_function`, one per iteration. -/
def function_runner_calls (rng : RandomStream) (n : ℕ) : List (ℚ × ℚ) :=
  (List.range n).map fun i => (rng.real i, ((rng.int i : ℤ) : ℚ))

/-- `def function_runner(n=1000)` (lines 95-99): `n` iterations, each drawing
`x = random.random()`, `y = random.randint(0, 100)` and calling
`frequently_called_function(x, y)`; returns `None`. -/
def function_runner (rng : RandomStream) (s : ProgState) (n : ℕ) :
    ProgState × Except PyError (Option ℚ) :=
  ((function_runner_calls rng n).foldl
    (fun acc p => (frequently_called_function acc p.1 p.2).1) s,
   Except.ok none)

/-- `def method_runner(n=1000)` (lines 111-116): constructs `obj =
MyClass(pi)` once, then `n` iterations each drawing a fresh pair and calling
`obj.frequently_called_method(x, y)`; returns `None`. -/
def method_runner (rng : RandomStream) (s : ProgState) (n : ℕ) :
    ProgState × Except PyError (Option ℚ) :=
  let obj := MyClass.init s.pi
  ((function_runner_calls rng n).foldl
    (fun acc p => (obj.frequently_called_method acc p.1 p.2).1) s,
   Except.ok none)

/-- The loop of `coroutine_runner` (lines 105-108).  Each iteration draws
`x` and `y` and then evaluates `frequently_called_coroutine.send(x, y)`:
the attribute `send` is looked up on the generator *function* object
`frequently_called_coroutine`, not on the instance `cr`.  A function object
has no `send` attribute, so the lookup raises `AttributeError` before any
resumption can happen; the `if` keeps the shape of the source's intent
visible (the `true` branch is unreachable because
`has_send PyObjKind.functionObj = false`). -/
def coroutine_runner_loop (rng : RandomStream) (cr : CoroutineState)
    (s : ProgState) : ℕ → ℕ → ProgState × Except PyError (Option ℚ)
  | _, 0 => (s, Except.ok none)
  | i, Nat.succ k =>
    let _x := rng.real i
    let _y := ((rng.int i : ℤ) : ℚ)
    if has_send PyObjKind.functionObj then
      coroutine_runner_loop rng cr s (i + 1) k
    else
      (s, Except.error
        (PyError.attributeError "function object has no attribute send"))

/-- `def coroutine_runner(n=1000)` (lines 102-108): `cr =
frequently_called_coroutine(pi)` followed by the priming `next(cr)`
(modelled together by `frequently_called_coroutine_init`), then the loop. -/
def coroutine_runner (rng : RandomStream) (s : ProgState) (n : ℕ) :
    ProgState × Except PyError (Option ℚ) :=
  let cr := frequently_called_coroutine_init s s.pi
  coroutine_runner_loop rng cr s 0 n

/-- Python `min(measurements)` on a list: raises `ValueError` on an empty
sequence, otherwise folds binary `min` over the elements. -/
def py_min : List ℚ → Except PyError ℚ
  | [] => Except.error (PyError.valueError "min arg is an empty sequence")
  | x :: xs => Except.ok (xs.foldl min x)

/-- The report line produced by the format string of line 120
(msg, then ": best of ", then the length, then ": ", then the minimum). -/
def format_line (msg : String) (count : ℕ) (best : ℚ) : String :=
  msg ++ ": best of " ++ toString count ++ ": " ++ toString best

/-- `def evaluate(measurements, msg='')` (lines 119-121): prints one line
`format_line msg (len measurements) (min measurements)` and returns
`min(measurements)`.  The source evaluates `min(measurements)` twice (once
in the print, once in the return); both evaluations are modelled.  The
`String` in the result is the single line written to standard output. -/
def evaluate (measurements : List ℚ) (msg : String) :
    Except PyError (String × ℚ) := do
  let m1 ← py_min measurements
  let line := format_line msg measurements.length m1
  let m2 ← py_min measurements
  Except.ok (line, m2)

/-- The three runner configurations of the `__main__` block. -/
inductive RunnerId where
  | functionR
  | coroutineR
  | methodR
  deriving DecidableEq, Repr

/-- A `timeit.Timer` whose statement invokes the given runner. -/
structure Timer where
  stmt : RunnerId
  deriving DecidableEq, Repr

/-- `t.repeat(rounds, number=1)`: the list of `rounds` wall-clock
measurements of the timer's statement.  `measure r i` is the duration that
round `i` of runner `r` would take; it is a parameter because wall-clock
time is outside the program. -/
def Timer.repeat (t : Timer) (measure : RunnerId → ℕ → ℚ) (rounds : ℕ) :
    List ℚ :=
  (List.range rounds).map (measure t.stmt)

/-- The `__main__` block (lines 124-138): builds the three timers and calls
`evaluate` three times.  Faithful to the source, all three `evaluate` calls
pass `t_function.repeat(rounds, number=1)` (lines 130, 134, 138); the timers
`t_coroutine` and `t_method` are created but never run.  The result is the
list of (printed line, returned minimum) pairs in print order. -/
def main_report (measure : RunnerId → ℕ → ℚ) :
    Except PyError (List (String × ℚ)) := do
  let rounds := 5
  let t_function : Timer := { stmt := RunnerId.functionR }
  let r1 ← evaluate (t_function.repeat measure rounds) "function call"
  let t_coroutine : Timer := { stmt := RunnerId.coroutineR }
  let r2 ← evaluate (t_function.repeat measure rounds) "coroutine.send"
  let t_method : Timer := { stmt := RunnerId.methodR }
  let r3 ← evaluate (t_function.repeat measure rounds) "method call"
  Except.ok [r1, r2, r3]

/-- A concrete measurement oracle: every `function_runner` round takes 1
unit, every `coroutine_runner` round 2, every `method_runner` round 3. -/
def ex_measure : RunnerId → ℕ → ℚ
  | RunnerId.functionR, _ => 1
  | RunnerId.coroutineR, _ => 2
  | RunnerId.methodR, _ => 3

/-- A concrete random stream for witnesses: always draws 0. -/
def constRng : RandomStream where
  real := fun _ => 0
  int := fun _ => 0
  real_nonneg := fun _ => le_refl 0
  real_lt_one := fun _ => by norm_num
  int_nonneg := fun _ => le_refl 0
  int_le := fun _ => by norm_num

/-! ### Helper lemmas -/

theorem foldl_min_le_init (x : ℚ) (xs : List ℚ) : xs.foldl min x ≤ x := by
  induction xs generalizing x with
  | nil => exact le_refl x
  | cons y ys ih =>
    calc ys.foldl min (min x y) ≤ min x y := ih (min x y)
    _ ≤ x := min_le_left x y

theorem foldl_min_mem (x : ℚ) (xs : List ℚ) : xs.foldl min x ∈ x :: xs := by
  induction xs generalizing x with
  | nil => exact List.mem_singleton.mpr rfl
  | cons y ys ih =>
    have h := ih (min x y)
    rcases List.mem_cons.mp h with h1 | h1
    · rcases min_choice x y with hc | hc
      · exact List.mem_cons.mpr (Or.inl (h1.trans hc))
      · rw [List.foldl_cons]
        exact List.mem_cons.mpr (Or.inr (List.mem_cons.mpr (Or.inl (h1.trans hc))))
    · rw [List.foldl_cons]
      exact List.mem_cons.mpr (Or.inr (List.mem_cons.mpr (Or.inr h1)))

theorem foldl_preserving {α β : Type} (f : β → α → β) (hf : ∀ b a, f b a = b) :
    ∀ (l : List α) (b : β), l.foldl f b = b := by
  intro l
  induction l with
  | nil => intro b; rfl
  | cons a as ih => intro b; rw [List.foldl_cons, hf]; exact ih b

/-! ### Claim theorems -/

/-- Claim C1: the claim says `coroutine_runner n` completes without raising
and resumes the generator once per iteration; in the source the first loop
iteration looks up `send` on the generator function (which has no such
attribute) and raises `AttributeError`, for every `n ≥ 1`. -/
theorem c1_coroutine_runner_raises (rng : RandomStream) (s : ProgState)
    (n : ℕ) (h : 1 ≤ n) :
    (coroutine_runner rng s n).2 =
      Except.error
        (PyError.attributeError "function object has no attribute send") := by
  obtain ⟨k, rfl⟩ : ∃ k, n = k + 1 := ⟨n - 1, by omega⟩
  rfl

/-- Witness for C1 at the concrete input `n = 1`. -/
theorem c1_coroutine_runner_raises_witness :
    (1 : ℕ) ≤ 1 ∧
    (coroutine_runner constRng initState 1).2 =
      Except.error
        (PyError.attributeError "function object has no attribute send") :=
  ⟨le_refl 1, c1_coroutine_runner_raises constRng initState 1 (le_refl 1)⟩

/-- Claim C2: under a measurement oracle where function rounds take 1 and
method rounds take 3, the `__main__` block reports 1 for all three labels —
all three `evaluate` calls use `t_function.repeat` — while the method
timer's own measurements have minimum 3.  The labelled lists are therefore
not obtained from each configuration's own runner. -/
theorem c2_report_reuses_function_timer :
    main_report ex_measure =
      Except.ok [("function call: best of 5: 1", 1),
                 ("coroutine.send: best of 5: 1", 1),
                 ("method call: best of 5: 1", 1)] ∧
    py_min ((Timer.mk RunnerId.methodR).repeat ex_measure 5) =
      Except.ok 3 := by
  constructor <;> rfl

/-- Claim C3: for a non-empty measurement list, `evaluate` produces exactly
one output line of the literal form `<msg>: best of <N>: <min>` with `N` the
list length, and returns the minimum; the printed/returned value is the
list's minimum element (`List.min?`) and a member of the list. -/
theorem c3_evaluate_prints_min (msg : String) (x : ℚ) (xs : List ℚ) :
    evaluate (x :: xs) msg =
      Except.ok (msg ++ ": best of " ++ toString (x :: xs).length ++ ": " ++
        toString (xs.foldl min x), xs.foldl min x) ∧
    (x :: xs).min? = some (xs.foldl min x) ∧
    xs.foldl min x ∈ x :: xs :=
  ⟨rfl, rfl, foldl_min_mem x xs⟩

/-- Claim C4: the minimum aggregation used by `evaluate` is monotonically
non-increasing in the number of samples: appending one more measurement can
only lower (or keep) the reported minimum. -/
theorem c4_min_nonincreasing (x a : ℚ) (xs : List ℚ) :
    py_min (x :: xs) = Except.ok (xs.foldl min x) ∧
    py_min ((x :: xs) ++ [a]) = Except.ok ((xs ++ [a]).foldl min x) ∧
    (xs ++ [a]).foldl min x ≤ xs.foldl min x := by
  refine ⟨rfl, rfl, ?_⟩
  rw [List.foldl_append, List.foldl_cons, List.foldl_nil]
  exact min_le_left _ _

/-- Claim C5: `function_runner n` returns `None` leaving the module state
unchanged, performs exactly `n` iterations, and iteration `i` passes exactly
the freshly drawn pair — a uniform real in `[0, 1)` and an integer in
`[0, 100]` — to `frequently_called_function`. -/
theorem c5_function_runner_iterations (rng : RandomStream) (s : ProgState)
    (n : ℕ) :
    function_runner rng s n = (s, Except.ok none) ∧
    (function_runner_calls rng n).length = n ∧
    ∀ i, i < n →
      (function_runner_calls rng n)[i]? =
        some (rng.real i, ((rng.int i : ℤ) : ℚ)) ∧
      0 ≤ rng.real i ∧ rng.real i < 1 ∧ 0 ≤ rng.int i ∧ rng.int i ≤ 100 := by
  refine ⟨?_, by simp [function_runner_calls], ?_⟩
  · unfold function_runner
    rw [foldl_preserving (fun acc p => (frequently_called_function acc p.1 p.2).1)
      (fun b a => rfl) (function_runner_calls rng n) s]
  · intro i hi
    refine ⟨?_, rng.real_nonneg i, rng.real_lt_one i, rng.int_nonneg i,
      rng.int_le i⟩
    simp [function_runner_calls, hi]

/-- Witness for C5 at the concrete inputs `n = 2`, `i = 0`. -/
theorem c5_function_runner_iterations_witness :
    (function_runner_calls constRng 2)[0]? =
      some (constRng.real 0, ((constRng.int 0 : ℤ) : ℚ)) ∧
    0 ≤ constRng.real 0 ∧ constRng.real 0 < 1 ∧
    0 ≤ constRng.int 0 ∧ constRng.int 0 ≤ 100 :=
  (c5_function_runner_iterations constRng initState 2).2.2 0 (by norm_num)

/-- Claim C6: the value computed by `MyClass(pi).frequently_called_method`
equals the value computed by `frequently_called_function` on the same
arguments, at the startup state: the method variant is behaviourally
equivalent, differing only in how the constant is obtained. -/
theorem c6_method_value_equals_function_value (p1 p2 : ℚ) :
    (MyClass.init pi).frequently_called_method_z initState p1 p2 =
      frequently_called_function_z initState p1 p2 := rfl

/-- Claim C7: the startup constants hold (`data.param1 = "stuff"`,
`data.param2 = 57.32`, `pi = 3.1415927`) and no operation of the program —
workload wrapper, runner, or resumption — changes the module state. -/
theorem c7_constants_immutable :
    data.param1 = "stuff" ∧ data.param2 = 57.32 ∧ pi = 3.1415927 ∧
    initState.data = data ∧ initState.pi = pi ∧
    (∀ s p1 p2, (frequently_called_function s p1 p2).1 = s) ∧
    (∀ c s p1 p2, (MyClass.frequently_called_method c s p1 p2).1 = s) ∧
    (∀ st s p1 p2, (frequently_called_coroutine_resume st s p1 p2).1 = s) ∧
    (∀ rng s n, (function_runner rng s n).1 = s) ∧
    (∀ rng s n, (method_runner rng s n).1 = s) ∧
    (∀ rng s n, (coroutine_runner rng s n).1 = s) := by
  refine ⟨rfl, by norm_num [data], rfl, rfl, rfl,
    fun s p1 p2 => rfl, fun c s p1 p2 => rfl, fun st s p1 p2 => rfl,
    ?_, ?_, ?_⟩
  · intro rng s n
    exact foldl_preserving _ (fun b a => rfl) _ s
  · intro rng s n
    exact foldl_preserving _ (fun b a => rfl) _ s
  · intro rng s n
    cases n with
    | zero => rfl
    | succ k => rfl

/-- Claim C8: on any numeric pair, each invocation wrapper — the direct
function, the method on a constructed instance, and one resumption of a
primed generator instance — terminates with no exception, yields/returns
`None`, and leaves all state unchanged. -/
theorem c8_wrappers_safe (p1 p2 : ℚ) (c : MyClass) (st : CoroutineState)
    (s : ProgState) :
    frequently_called_function s p1 p2 = (s, Except.ok none) ∧
    c.frequently_called_method s p1 p2 = (s, Except.ok none) ∧
    frequently_called_coroutine_resume st s p1 p2 = (s, st, Except.ok none) :=
  ⟨rfl, rfl, rfl⟩

/-- Claim C9: the value computed by the coroutine body on receiving
`(p1, p2)` — with `pi_local` and `offset` captured at priming time — equals
the value computed by `frequently_called_function(p1, p2)` at the startup
state. -/
theorem c9_coroutine_value_equals_function_value (p1 p2 : ℚ) :
    frequently_called_coroutine_body
        (frequently_called_coroutine_init initState initState.pi) p1 p2 =
      frequently_called_function_z initState p1 p2 := rfl

/-- Claim C10: `evaluate` on an empty measurement list raises `ValueError`
(from `min` of an empty sequence) and prints nothing; on any non-empty list
it raises nothing and produces its single report line and minimum. -/
theorem c10_evaluate_empty_raises (msg : String) (x : ℚ) (xs : List ℚ) :
    evaluate [] msg =
      Except.error (PyError.valueError "min arg is an empty sequence") ∧
    evaluate (x :: xs) msg =
      Except.ok (format_line msg (x :: xs).length (xs.foldl min x),
        xs.foldl min x) :=
  ⟨rfl, rfl⟩

end YieldOrCall
